import Mathlib

/-
Verification of the Glassdoor scraper (src/glassdoor_scraper.py).

Shallow embedding: the browser session is modelled as pure data.  A detail
pane is an association list from selector strings to the text the selector
resolves to (a missing key models `find_element` raising, which the source
catches).  The collection loop of `get_jobs` is embedded as a fuel-indexed
function over an inductive `Site` describing the page, its "Show more jobs"
button and its "See more jobs" link.
-/

namespace Glassdoor

/-! ## Field extractor (`safe_find`, lines 37-53) -/

/-- Models `base_element.find_element(...).text` for one selector against a
detail pane: `some t` means the selector resolved to an element whose text is
`t`; `none` means `find_element` raised (caught by the bare `except`). -/
def resolveText (pane : List (String × String)) (sel : String) : Option String :=
  (pane.find? (fun p => p.1 == sel)).map (fun p => p.2)

/-- Python's `str.strip()`: drop leading and trailing whitespace from the
character sequence. -/
def pyStrip (s : String) : String :=
  String.mk (((s.data.dropWhile Char.isWhitespace).reverse.dropWhile
    Char.isWhitespace).reverse)

/-- Lines 37-53: try each selector in order; return the stripped text of the
first selector that resolves to non-empty text, else the default `"-1"`.
The XPath/CSS dispatch on `selector.startswith` picks the resolution
primitive only, which `resolveText` abstracts over. -/
def safe_find (pane : List (String × String)) (sels : List String)
    (default : String := "-1") : String :=
  match sels with
  | [] => default
  | sel :: rest =>
    match resolveText pane sel with
    | some t => if (pyStrip t) = "" then safe_find pane rest default else (pyStrip t)
    | none => safe_find pane rest default

/-- Spec-side helper for stating C4: the stripped text a single selector
contributes, `none` when it raises or strips to empty. -/
def goodText (pane : List (String × String)) (sel : String) : Option String :=
  match resolveText pane sel with
  | some t => if (pyStrip t) = "" then none else some (pyStrip t)
  | none => none

/-! ## Modal dismisser (`close_any_modal`, lines 55-74) -/

/-- Models `driver.find_element(By.CSS_SELECTOR, sel)` followed by
`close_btn.click()`: `none` means find raised, `some b` means the button was
found and the click succeeded iff `b`. -/
def findBtn (page : List (String × Bool)) (sel : String) : Option Bool :=
  (page.find? (fun p => p.1 == sel)).map (fun p => p.2)

/-- Lines 58-64: the fixed close-control selector table. -/
def close_selectors : List String :=
  ["button[data-test='close-modal']",
   "button[aria-label='Close']",
   "button.CloseButton",
   "svg[data-test='close-icon']",
   "span[aria-label='Close']"]

/-- Lines 65-72: the per-selector loop of `close_any_modal`.  Returns the
selector whose click succeeded (the `return` at line 70), `none` if every
selector either failed to resolve or threw on click (`except: pass`). -/
def attemptClose (page : List (String × Bool)) : List String → Option String
  | [] => none
  | sel :: rest =>
    match findBtn page sel with
    | some true => some sel
    | some false => attemptClose page rest
    | none => attemptClose page rest

/-- Lines 55-74: `close_any_modal`.  Total (the outer `try/except` swallows
everything); the returned selector records which control dismissed the
modal, `none` models the silent fall-through. -/
def close_any_modal (page : List (String × Bool)) : Option String :=
  attemptClose page close_selectors

/-! ## Description truncation (line 224) -/

/-- Line 224: `job_description[:500] + "..." if len(job_description) > 500
else job_description`.  Python slicing acts on the character sequence, hence
the `String.data` formulation. -/
def truncDesc (s : String) : String :=
  if 500 < s.length then String.mk (s.data.take 500) ++ "..." else s

/-! ## JobRecord (lines 206-228) -/

/-- The fourteen string-valued attributes assembled at lines 221-228, in the
dict-key (and hence CSV column) order. -/
structure Job where
  title : String
  company : String
  location : String
  salaryEstimate : String
  rating : String
  description : String
  headquarters : String
  size : String
  founded : String
  ownership : String
  industry : String
  sector : String
  revenue : String
  competitors : String
deriving DecidableEq, Repr

/-- Lines 206-228: the fourteen `safe_find` extractions against the detail
pane, with the description truncation of line 224. -/
def extractJob (pane : List (String × String)) : Job :=
  let job_title := safe_find pane
    ["h1.heading_Level1__w42c9", "h1[id*='jd-job-title-']", "div[data-test='jobTitle']"]
  let company_name := safe_find pane
    ["div.EmployerProfile_employerNameHeading__bXBYr", "div[data-test='employerName']"]
  let rating := safe_find pane
    ["span.rating-single-star_RatingText__5fdjN", "span[data-test='detailRating']"]
  let location := safe_find pane ["div[data-test='location']"]
  let salary_estimate := safe_find pane
    ["div[data-test='detailSalary']", "span[data-test='detailSalary']"]
  let job_description := safe_find pane
    ["div.JobDetails_jobDescription__uW_fK", "div[data-test='jobDescriptionText']"]
  let headquarters := safe_find pane [".//div[span[text()='Headquarters']]/div"]
  let size := safe_find pane [".//div[span[text()='Size']]/div"]
  let founded := safe_find pane [".//div[span[text()='Founded']]/div"]
  let type_of_ownership := safe_find pane [".//div[span[text()='Type']]/div"]
  let industry := safe_find pane [".//div[span[text()='Industry']]/div"]
  let sector := safe_find pane [".//div[span[text()='Sector']]/div"]
  let revenue := safe_find pane [".//div[span[text()='Revenue']]/div"]
  let competitors := safe_find pane [".//div[span[text()='Competitors']]/div"]
  ⟨job_title, company_name, location, salary_estimate, rating,
   truncDesc job_description, headquarters, size, founded,
   type_of_ownership, industry, sector, revenue, competitors⟩

/-! ## The per-page persist step (line 234) -/

inductive PyError where
  | attributeError (obj attr : String)
deriving DecidableEq, Repr

/-- The attributes a Python `list` object provides. -/
def pyListMethods : List String :=
  ["append", "clear", "copy", "count", "extend", "index",
   "insert", "pop", "remove", "reverse", "sort"]

/-- Line 234: `jobs.to_csv("glassdoor_jobs.csv", index=False)`.  `jobs` is
the plain Python list built at line 133 and never rebound, and `list` has no
`to_csv` attribute, so the attribute lookup raises `AttributeError` (there is
no enclosing `try`, so it propagates out of `get_jobs`). -/
def persistJobs (jobs : List Job) : Except PyError (List Job) :=
  if "to_csv" ∈ pyListMethods then .ok jobs
  else .error (.attributeError "list" "to_csv")

/-! ## The collection loop of `get_jobs` (lines 133-311) -/

/-- One listing card.  `clickOk` models the scroll-and-click block at lines
182-194 (false: the whole block raised and the card is skipped); `pane`
models the detail-pane wait at lines 196-203 (`none`: `TimeoutException`,
card skipped; `some env`: the pane appeared with selector environment
`env`). -/
structure Card where
  clickOk : Bool
  pane : Option (List (String × String))

mutual
/-- A page as the loop observes it: the job cards currently present, the
state of the "Show more jobs" button and of the "See more jobs" link. -/
inductive Site where
  | mk : List Card → ShowMoreBtn → SeeMoreLink → Site

/-- Lines 241-263: `find_element("button[data-test='load-more']")`.
`absent`: the find raised (bare `except` at line 261).  `found enabled
displayed clickOk next`: the button exists with the given
`is_enabled`/`is_displayed` state; if clicked successfully the page becomes
`next`.  A click that raises is also caught by the `except` at line 261. -/
inductive ShowMoreBtn where
  | absent : ShowMoreBtn
  | found : Bool → Bool → Bool → Site → ShowMoreBtn

/-- Lines 266-297: the `//a[contains(., 'See more jobs')]` lookup.
`absent`: `NoSuchElementException` (line 290).  `fail`: any other exception
(line 294).  `found href dest`: the link exists, `get_attribute('href')`
returns `href`, and navigation lands on `dest`. -/
inductive SeeMoreLink where
  | absent : SeeMoreLink
  | fail : SeeMoreLink
  | found : Option String → Site → SeeMoreLink
end

/-- The mutable loop state: `jobs` (line 133), `page_num` (line 134) and
`scraped_card_count` (line 139). -/
structure RunState where
  jobs : List Job
  page_num : Nat
  scraped : Nat
deriving DecidableEq, Repr

/-- Line 135: `max_pages = 10`. -/
def maxPages : Nat := 10

/-- Why the loop stopped; labels the `break` sites and the `while`
condition. -/
inductive StopReason where
  | targetReached
  | pageLimit
  | noListings
  | noCards
  | complete
  | navError
deriving DecidableEq, Repr

inductive RunOutcome where
  | ok (reason : StopReason) (jobs : List Job)
  | crash (e : PyError) (jobs : List Job)
  | fuelOut (jobs : List Job)
deriving DecidableEq, Repr

/-- The in-memory job list at the point the loop stopped (or crashed). -/
def RunOutcome.jobs : RunOutcome → List Job
  | .ok _ js => js
  | .crash _ js => js
  | .fuelOut js => js

/-- Lines 176-232: the for-loop over `new_job_cards`.  Returns the job list
together with the number of cards the loop body ran for (i.e. cards it went
on to activate rather than `break` away from at lines 177-178). -/
def dispatch (n : Nat) : List Job → List Card → List Job × Nat
  | jobs, [] => (jobs, 0)
  | jobs, c :: rest =>
    if n ≤ jobs.length then (jobs, 0)
    else
      let next :=
        match c.clickOk, c.pane with
        | true, some env => dispatch n (jobs ++ [extractJob env]) rest
        | _, _ => dispatch n jobs rest
      (next.1, next.2 + 1)

/-- Outcome of the navigation block at lines 236-304: either loop again
(`continue`) on a page with an updated state, or `break` for the given
reason. -/
inductive NavResult where
  | goto (site : Site) (st : RunState)
  | stop (r : StopReason)

/-- Lines 266-302 (CASE 2): the "See more jobs" link.  Reached only when
CASE 1 set no `navigated`.  A found link with a truthy `href` navigates,
resets `scraped_card_count = 0` (line 283) and `page_num = 1` (line 287);
a falsy `href` falls through to the final `break` at lines 300-302. -/
def seeMoreStep (jobs : List Job) : SeeMoreLink → NavResult
  | .absent => .stop .complete
  | .fail => .stop .navError
  | .found href dest =>
    match href with
    | some u => if u = "" then .stop .complete else .goto dest ⟨jobs, 1, 0⟩
    | none => .stop .complete

/-- Lines 236-304: the full navigation decision.  CASE 1 (lines 241-263)
clicks "Show more jobs" when present, enabled and displayed, setting
`scraped_card_count = len(all_job_cards)` (line 253, the pre-click count)
and leaving `page_num` untouched; any exception there (absent button or a
click that raises) falls through to CASE 2. -/
def navDecision (st : RunState) (jobs : List Job) (allCount : Nat) :
    ShowMoreBtn → SeeMoreLink → NavResult
  | .found enabled displayed clickOk next, sl =>
    if enabled && displayed then
      if clickOk then .goto next ⟨jobs, st.page_num, allCount⟩
      else seeMoreStep jobs sl
    else seeMoreStep jobs sl
  | .absent, sl => seeMoreStep jobs sl

/-- Lines 142-304: the `while` loop of `get_jobs`, fuel-indexed to bound the
recursion (`fuelOut` is an artifact of the embedding, not a behaviour of the
source).  Each iteration: re-check the `while` condition (line 142), wait
for listings (lines 146-152, modelled as: the wait times out iff no card is
present), slice off the already-scraped prefix (line 161), dispatch the new
cards, run the persist step of line 234, then the navigation block. -/
def runLoop (n : Nat) : Nat → Site → RunState → RunOutcome
  | 0, _, st => .fuelOut st.jobs
  | fuel + 1, .mk cards sm sl, st =>
    if n ≤ st.jobs.length then .ok .targetReached st.jobs
    else if maxPages < st.page_num then .ok .pageLimit st.jobs
    else if cards.isEmpty then .ok .noListings st.jobs
    else
      let jobs' := (dispatch n st.jobs (cards.drop st.scraped)).1
      match persistJobs jobs' with
      | .error e => .crash e jobs'
      | .ok js =>
        if n ≤ js.length then .ok .targetReached js
        else
          match navDecision st js cards.length sm sl with
          | .goto s' st' => runLoop n fuel s' st'
          | .stop r => .ok r js

/-! ## Headless coercion (lines 76-81) -/

/-- Lines 79-81: `if headless: print(warning); headless = False` — the value
of the `headless` flag after the coercion, before any browser option is
configured. -/
def effective_headless (headless : Bool) : Bool :=
  if headless then false else headless

/-! ## Concrete pages used to evaluate the model -/

/-- A listing card whose click succeeds and whose detail pane appears with an
empty selector environment (every extraction falls back to the sentinel). -/
def cardOk : Card := ⟨true, some []⟩

/-- A page with no listing cards and no continuation controls. -/
def siteEmpty : Site := .mk [] .absent .absent

/-- A single page with one card and no continuation controls. -/
def siteOne : Site := .mk [cardOk] .absent .absent

/-- The page reached after one "Show more jobs" click in the C6 scenario:
the 5 original cards plus 10 new ones. -/
def siteC6b : Site := .mk (List.replicate 15 cardOk) .absent .absent

/-- The C6 scenario page: 5 cards and a working "Show more jobs" button that
loads 10 more. -/
def siteC6 : Site := .mk (List.replicate 5 cardOk) (.found true true true siteC6b) .absent

/-- A detail pane where the salary selector resolves to whitespace-only text
and the location selector to padded text. -/
def paneW : List (String × String) :=
  [("div[data-test='location']", "  Bengaluru, India  "),
   ("div[data-test='detailSalary']", "   ")]

/-- A page where the third and fifth close controls both exist and click
successfully. -/
def pageW : List (String × Bool) :=
  [("button.CloseButton", true), ("span[aria-label='Close']", true)]

/-- A 501-character description. -/
def longDesc : String := String.mk (List.replicate 501 'a')

/-! ## Predicates used to state the continuation-policy claims -/

/-- The incremental-load attempt fails: the button raised on lookup, is
disabled or hidden, or its click raised (all falling through to CASE 2). -/
def smUnavailable : ShowMoreBtn → Prop
  | .absent => True
  | .found e d c _ => e = false ∨ d = false ∨ c = false

/-- The full-navigation attempt can succeed: the link is found and its
`href` is truthy. -/
def navigable : SeeMoreLink → Prop
  | .found (some u) _ => u ≠ ""
  | _ => False

/-! ## Helper lemmas -/

theorem persistJobs_eq (jobs : List Job) :
    persistJobs jobs = .error (.attributeError "list" "to_csv") := by
  have h : ¬ ("to_csv" ∈ pyListMethods) := by decide
  simp [persistJobs, h]

theorem dispatch_stop (n : Nat) (jobs : List Job) (cards : List Card)
    (h : n ≤ jobs.length) : dispatch n jobs cards = (jobs, 0) := by
  cases cards with
  | nil => rfl
  | cons c rest => simp [dispatch, h]

theorem dispatch_le (cards : List Card) : ∀ (n : Nat) (jobs : List Job),
    jobs.length ≤ n → ((dispatch n jobs cards).1).length ≤ n := by
  induction cards with
  | nil => intro n jobs h; simpa [dispatch] using h
  | cons c rest ih =>
    intro n jobs h
    by_cases hle : n ≤ jobs.length
    · simpa [dispatch, hle] using h
    · have hlt : jobs.length < n := Nat.not_le.mp hle
      rcases c with ⟨ck, pn⟩
      cases ck <;> rcases pn with _ | env <;> simp [dispatch, hle] <;>
        first
          | exact ih n jobs h
          | exact ih n (jobs ++ [extractJob env]) (by simpa using hlt)

theorem safe_find_all_none (pane : List (String × String)) :
    ∀ sels, (∀ x ∈ sels, goodText pane x = none) → safe_find pane sels = "-1" := by
  intro sels
  induction sels with
  | nil => intro _; rfl
  | cons s rest ih =>
    intro h
    have hs := h s (by simp)
    cases hr : resolveText pane s with
    | none =>
      simp only [safe_find, hr]
      exact ih (fun x hx => h x (by simp [hx]))
    | some t =>
      have he : (pyStrip t) = "" := by
        by_contra hne
        simp [goodText, hr, hne] at hs
      simp only [safe_find, hr, if_pos he]
      exact ih (fun x hx => h x (by simp [hx]))

theorem safe_find_first (pane : List (String × String)) (pre : List String) :
    ∀ (s : String) (post : List String) (t : String),
    (∀ x ∈ pre, goodText pane x = none) → goodText pane s = some t →
    safe_find pane (pre ++ s :: post) = t := by
  induction pre with
  | nil =>
    intro s post t _ hs
    cases hr : resolveText pane s with
    | none => simp [goodText, hr] at hs
    | some t0 =>
      by_cases he : (pyStrip t0) = ""
      · simp [goodText, hr, he] at hs
      · simp only [goodText, hr, if_neg he, Option.some.injEq] at hs
        subst hs
        simp [safe_find, hr, he]
  | cons x xs ih =>
    intro s post t hpre hs
    have hx := hpre x (by simp)
    cases hr : resolveText pane x with
    | none =>
      simp only [List.cons_append, safe_find, hr]
      exact ih s post t (fun y hy => hpre y (by simp [hy])) hs
    | some t0 =>
      have he : (pyStrip t0) = "" := by
        by_contra hne
        simp [goodText, hr, hne] at hx
      simp only [List.cons_append, safe_find, hr, if_pos he]
      exact ih s post t (fun y hy => hpre y (by simp [hy])) hs

theorem attemptClose_all_none (page : List (String × Bool)) :
    ∀ sels, (∀ s ∈ sels, findBtn page s ≠ some true) → attemptClose page sels = none := by
  intro sels
  induction sels with
  | nil => intro _; rfl
  | cons s rest ih =>
    intro h
    have hs := h s (by simp)
    cases hr : findBtn page s with
    | none =>
      simp only [attemptClose, hr]
      exact ih (fun x hx => h x (by simp [hx]))
    | some b =>
      cases b with
      | true => exact absurd hr hs
      | false =>
        simp only [attemptClose, hr]
        exact ih (fun x hx => h x (by simp [hx]))

theorem attemptClose_first (page : List (String × Bool)) (pre : List String) :
    ∀ (s : String) (post : List String),
    (∀ x ∈ pre, findBtn page x ≠ some true) → findBtn page s = some true →
    attemptClose page (pre ++ s :: post) = some s := by
  induction pre with
  | nil => intro s post _ hs; simp [attemptClose, hs]
  | cons x xs ih =>
    intro s post hpre hs
    have hx := hpre x (by simp)
    cases hr : findBtn page x with
    | none =>
      simp only [List.cons_append, attemptClose, hr]
      exact ih s post (fun y hy => hpre y (by simp [hy])) hs
    | some b =>
      cases b with
      | true => exact absurd hr hx
      | false =>
        simp only [List.cons_append, attemptClose, hr]
        exact ih s post (fun y hy => hpre y (by simp [hy])) hs

theorem seeMoreStep_goto (jobs : List Job) (sl : SeeMoreLink) (s' : Site)
    (st' : RunState) (h : seeMoreStep jobs sl = .goto s' st') :
    st' = ⟨jobs, 1, 0⟩ := by
  cases sl with
  | absent => simp [seeMoreStep] at h
  | fail => simp [seeMoreStep] at h
  | found href dest =>
    rcases href with _ | u
    · simp [seeMoreStep] at h
    · by_cases hu : u = ""
      · simp [seeMoreStep, hu] at h
      · simp only [seeMoreStep, if_neg hu, NavResult.goto.injEq] at h
        exact h.2.symm

theorem seeMoreStep_stop (jobs : List Job) (sl : SeeMoreLink) (r : StopReason)
    (h : seeMoreStep jobs sl = .stop r) : ¬ navigable sl := by
  cases sl with
  | absent => simp [navigable]
  | fail => simp [navigable]
  | found href dest =>
    rcases href with _ | u
    · simp [navigable]
    · by_cases hu : u = ""
      · simp [navigable, hu]
      · simp [seeMoreStep, hu] at h

theorem navDecision_sm_fail (st : RunState) (jobs : List Job) (cnt : Nat)
    (sm : ShowMoreBtn) (sl : SeeMoreLink) (h : smUnavailable sm) :
    navDecision st jobs cnt sm sl = seeMoreStep jobs sl := by
  cases sm with
  | absent => rfl
  | found e d c next =>
    rcases h with he | hd | hc
    · subst he; simp [navDecision]
    · subst hd; simp [navDecision]
    · subst hc
      by_cases hed : e && d = true
      · simp [navDecision, hed]
      · simp [navDecision, hed]

theorem runLoop_jobs_le (fuel n : Nat) (site : Site) (st : RunState)
    (h : st.jobs.length ≤ n) : ((runLoop n fuel site st).jobs).length ≤ n := by
  cases fuel with
  | zero => simpa [runLoop, RunOutcome.jobs] using h
  | succ fuel =>
    rcases site with ⟨cards, sm, sl⟩
    by_cases h1 : n ≤ st.jobs.length
    · simpa [runLoop, h1, RunOutcome.jobs] using h
    · by_cases h2 : maxPages < st.page_num
      · simpa [runLoop, h1, h2, RunOutcome.jobs] using h
      · by_cases h3 : cards.isEmpty
        · simpa [runLoop, h1, h2, h3, RunOutcome.jobs] using h
        · simp only [runLoop, if_neg h1, if_neg h2, if_neg h3, persistJobs_eq,
            RunOutcome.jobs]
          exact dispatch_le (cards.drop st.scraped) n st.jobs h

theorem runLoop_not_pageLimit (n fuel : Nat) (site : Site) (st : RunState)
    (js : List Job) (hpg : st.page_num = 1) :
    runLoop n fuel site st ≠ .ok .pageLimit js := by
  cases fuel with
  | zero => simp [runLoop]
  | succ fuel =>
    rcases site with ⟨cards, sm, sl⟩
    have h2 : ¬ (maxPages < st.page_num) := by rw [hpg]; decide
    by_cases h1 : n ≤ st.jobs.length
    · simp [runLoop, h1]
    · by_cases h3 : cards.isEmpty
      · simp [runLoop, h1, h2, h3]
      · simp [runLoop, h1, h2, h3, persistJobs_eq]

/-! ## Claims -/

/-- C1: the per-page persist step never writes the tabular file.  `jobs` is
the plain Python list of line 133, so `jobs.to_csv(...)` at line 234 raises
AttributeError and aborts the run.  Concretely, a first page with one card
and `num_jobs = 1` crashes right after its Dispatching phase instead of
persisting a header plus one data row. -/
theorem C1_persist_crashes :
    runLoop 1 10 siteOne ⟨[], 1, 0⟩ =
      .crash (.attributeError "list" "to_csv") [extractJob []] := by
  decide

/-- C2: the page-visit counter never enforces the safety limit.  Every
navigation decision either keeps `page_num` unchanged or resets it to 1 —
nothing in the loop ever increments it — and from the initial `page_num = 1`
the loop can never terminate with the page-limit reason. -/
theorem C2_page_limit_dead :
    (∀ (st : RunState) (jobs : List Job) (cnt : Nat) (sm : ShowMoreBtn)
        (sl : SeeMoreLink) (s' : Site) (st' : RunState),
        navDecision st jobs cnt sm sl = .goto s' st' →
        st'.page_num = st.page_num ∨ st'.page_num = 1)
  ∧ (∀ (n fuel : Nat) (site : Site) (st : RunState) (js : List Job),
        st.page_num = 1 → runLoop n fuel site st ≠ .ok .pageLimit js) := by
  constructor
  · intro st jobs cnt sm sl s' st' h
    by_cases hsm : smUnavailable sm
    · rw [navDecision_sm_fail st jobs cnt sm sl hsm] at h
      right
      rw [seeMoreStep_goto jobs sl s' st' h]
    · cases sm with
      | absent => exact absurd trivial hsm
      | found e d c next =>
        cases e <;> cases d <;> cases c <;> simp [smUnavailable] at hsm
        simp [navDecision] at h
        left
        rw [← h.2]
  · exact fun n fuel site st js hpg => runLoop_not_pageLimit n fuel site st js hpg

theorem C2_page_limit_dead_witness :
    runLoop 5 3 siteOne ⟨[], 1, 0⟩ ≠ .ok .pageLimit [] ∧
      ((⟨[], 1, 7⟩ : RunState).page_num = (⟨[], 1, 0⟩ : RunState).page_num ∨
        (⟨[], 1, 7⟩ : RunState).page_num = 1) :=
  ⟨C2_page_limit_dead.2 5 3 siteOne ⟨[], 1, 0⟩ [] rfl,
   C2_page_limit_dead.1 ⟨[], 1, 0⟩ [] 7 (.found true true true siteEmpty) .absent
     siteEmpty ⟨[], 1, 7⟩ rfl⟩

/-- C3: `len(collected) ≤ target_count` throughout: the outcome's job list
is bounded whenever the state's is, the dispatch loop preserves the bound,
and once the target is reached dispatch activates no further card (the
`break` at lines 177-178 fires before any activation of the next card). -/
theorem C3_collected_bounded :
    (∀ (fuel n : Nat) (site : Site) (st : RunState),
        st.jobs.length ≤ n → ((runLoop n fuel site st).jobs).length ≤ n)
  ∧ (∀ (n : Nat) (jobs : List Job) (cards : List Card),
        jobs.length ≤ n → ((dispatch n jobs cards).1).length ≤ n)
  ∧ (∀ (n : Nat) (jobs : List Job) (cards : List Card),
        n ≤ jobs.length → dispatch n jobs cards = (jobs, 0)) :=
  ⟨fun fuel n site st h => runLoop_jobs_le fuel n site st h,
   fun n jobs cards h => dispatch_le cards n jobs h,
   fun n jobs cards h => dispatch_stop n jobs cards h⟩

theorem C3_collected_bounded_witness :
    ((runLoop 2 5 siteC6 ⟨[], 1, 0⟩).jobs).length ≤ 2 ∧
      dispatch 1 [extractJob []] [cardOk, cardOk] = ([extractJob []], 0) :=
  ⟨C3_collected_bounded.1 5 2 siteC6 ⟨[], 1, 0⟩ (by decide),
   C3_collected_bounded.2.2 1 [extractJob []] [cardOk, cardOk] (by decide)⟩

/-- C4: `safe_find` returns the stripped text of the first selector (in list
order) whose resolution yields non-empty text, and the sentinel "-1" when
every selector raises or strips to empty; a selector that raises is merely a
non-match. -/
theorem C4_safe_find_first_nonempty :
    ∀ (pane : List (String × String)) (sels : List String),
    ((∀ x ∈ sels, goodText pane x = none) → safe_find pane sels = "-1")
  ∧ (∀ (pre : List String) (s : String) (post : List String) (t : String),
        sels = pre ++ s :: post → (∀ x ∈ pre, goodText pane x = none) →
        goodText pane s = some t → safe_find pane sels = t) := by
  intro pane sels
  constructor
  · exact safe_find_all_none pane sels
  · intro pre s post t hsp hpre hs
    subst hsp
    exact safe_find_first pane pre s post t hpre hs

theorem C4_safe_find_first_nonempty_witness :
    safe_find paneW
        ["span[data-test='detailSalary']", "div[data-test='detailSalary']",
         "div[data-test='location']"] = "Bengaluru, India" ∧
      safe_find paneW ["div[data-test='x']"] = "-1" :=
  ⟨(C4_safe_find_first_nonempty paneW
        ["span[data-test='detailSalary']", "div[data-test='detailSalary']",
         "div[data-test='location']"]).2
      ["span[data-test='detailSalary']", "div[data-test='detailSalary']"]
      "div[data-test='location']" [] "Bengaluru, India" rfl (by decide) (by decide),
   (C4_safe_find_first_nonempty paneW ["div[data-test='x']"]).1 (by decide)⟩

/-- C5: a description longer than 500 characters is stored as exactly its
first 500 characters followed by the 3-character marker "..." (503 in
total); a description of 500 characters or fewer is stored unmodified. -/
theorem C5_description_truncation :
    ∀ s : String,
    (500 < s.length →
        (truncDesc s).data = s.data.take 500 ++ ['.', '.', '.'] ∧
          (truncDesc s).length = 503)
  ∧ (s.length ≤ 500 → truncDesc s = s) := by
  intro s
  refine ⟨fun h => ?_, fun h => ?_⟩
  · have hd : (truncDesc s).data = s.data.take 500 ++ ['.', '.', '.'] := by
      simp only [truncDesc, if_pos h]
      rfl
    refine ⟨hd, ?_⟩
    have hl : (truncDesc s).length = (truncDesc s).data.length := rfl
    have hs : s.length = s.data.length := rfl
    rw [hl, hd]
    simp [List.length_take]
    omega
  · simp only [truncDesc, if_neg (by omega : ¬ 500 < s.length)]

set_option maxRecDepth 4000 in
theorem C5_description_truncation_witness :
    (truncDesc longDesc).length = 503 ∧ truncDesc "short" = "short" :=
  ⟨((C5_description_truncation longDesc).1 (by decide)).2,
   (C5_description_truncation "short").2 (by decide)⟩

/-- C6: in the scenario — 5 initial cards, target 10, a working "Show more
jobs" control adding 10 more — the loop does NOT dispatch 5 and then 5 more:
after dispatching the first 5 cards it crashes at line 234 (`jobs.to_csv` on
a plain list), before the incremental-load control is ever activated. -/
theorem C6_incremental_scenario_crashes :
    runLoop 10 10 siteC6 ⟨[], 1, 0⟩ =
      .crash (.attributeError "list" "to_csv")
        (List.replicate 5 (extractJob [])) := by
  decide

/-- C7: when the incremental-load attempt has failed and a "See more jobs"
link with a truthy href is found, the navigation block navigates there,
resets `scraped_card_count` to 0 and `page_num` to 1 and loops back to
Scanning; when the incremental-load control works it is taken instead (page
counter untouched); and the block stops only when both strategies are
exhausted — never with one untried. -/
theorem C7_full_navigation_reset :
    ∀ (st : RunState) (jobs : List Job) (cnt : Nat) (sm : ShowMoreBtn)
      (sl : SeeMoreLink),
    (∀ (u : String) (dest : Site), smUnavailable sm → sl = .found (some u) dest →
        u ≠ "" → navDecision st jobs cnt sm sl = .goto dest ⟨jobs, 1, 0⟩)
  ∧ (¬ smUnavailable sm →
        ∃ next, navDecision st jobs cnt sm sl = .goto next ⟨jobs, st.page_num, cnt⟩)
  ∧ (∀ r, navDecision st jobs cnt sm sl = .stop r →
        smUnavailable sm ∧ ¬ navigable sl) := by
  intro st jobs cnt sm sl
  refine ⟨?_, ?_, ?_⟩
  · intro u dest hsm hsl hu
    subst hsl
    rw [navDecision_sm_fail st jobs cnt sm _ hsm]
    simp [seeMoreStep, hu]
  · intro hsm
    cases sm with
    | absent => exact absurd trivial hsm
    | found e d c next =>
      cases e <;> cases d <;> cases c <;> simp [smUnavailable] at hsm
      exact ⟨next, by simp [navDecision]⟩
  · intro r h
    by_cases hsm : smUnavailable sm
    · rw [navDecision_sm_fail st jobs cnt sm sl hsm] at h
      exact ⟨hsm, seeMoreStep_stop jobs sl r h⟩
    · cases sm with
      | absent => exact absurd trivial hsm
      | found e d c next =>
        cases e <;> cases d <;> cases c <;> simp [smUnavailable] at hsm
        simp [navDecision] at h

theorem C7_full_navigation_reset_witness :
    navDecision ⟨[], 1, 3⟩ [] 5 .absent (.found (some "https://x") siteEmpty) =
      .goto siteEmpty ⟨[], 1, 0⟩ :=
  (C7_full_navigation_reset ⟨[], 1, 3⟩ [] 5 .absent
      (.found (some "https://x") siteEmpty)).1 "https://x" siteEmpty trivial rfl
    (by decide)

/-- C8: if no listing element is present within the wait timeout, the run
stops with the no-listings reason, and on the first page (initial state) the
collected sequence it ends with is empty. -/
theorem C8_no_listings_empty :
    ∀ (n fuel : Nat) (sm : ShowMoreBtn) (sl : SeeMoreLink),
    0 < n → 0 < fuel →
    runLoop n fuel (.mk [] sm sl) ⟨[], 1, 0⟩ = .ok .noListings [] := by
  intro n fuel sm sl hn hf
  cases fuel with
  | zero => exact absurd hf (by simp)
  | succ fuel =>
    have h1 : ¬ (n ≤ 0) := by omega
    simp [runLoop, h1, maxPages]

theorem C8_no_listings_empty_witness :
    runLoop 3 1 (.mk [] .absent .absent) ⟨[], 1, 0⟩ = .ok .noListings [] :=
  C8_no_listings_empty 3 1 .absent .absent (by decide) (by decide)

/-- C9: `close_any_modal` is a total function of the page (never raises),
tries the fixed close-control selectors in order, stops at the first
selector whose click succeeds, and returns silently when none matches. -/
theorem C9_close_modal_first_success :
    ∀ page : List (String × Bool),
    ((∀ s ∈ close_selectors, findBtn page s ≠ some true) →
        close_any_modal page = none)
  ∧ (∀ (pre : List String) (s : String) (post : List String),
        close_selectors = pre ++ s :: post →
        (∀ x ∈ pre, findBtn page x ≠ some true) → findBtn page s = some true →
        close_any_modal page = some s) := by
  intro page
  constructor
  · exact attemptClose_all_none page close_selectors
  · intro pre s post hsp hpre hs
    unfold close_any_modal
    rw [hsp]
    exact attemptClose_first page pre s post hpre hs

theorem C9_close_modal_first_success_witness :
    close_any_modal pageW = some "button.CloseButton" ∧ close_any_modal [] = none :=
  ⟨(C9_close_modal_first_success pageW).2
      ["button[data-test='close-modal']", "button[aria-label='Close']"]
      "button.CloseButton" ["svg[data-test='close-icon']", "span[aria-label='Close']"]
      rfl (by decide) (by decide),
   (C9_close_modal_first_success []).1 (by decide)⟩

/-- C10: whatever `headless` argument `get_jobs` receives, the flag is False
after the coercion at lines 79-81 and before any browser option is built:
the run never uses headless mode. -/
theorem C10_headless_forced_off :
    ∀ h : Bool, effective_headless h = false := by
  decide

end Glassdoor
